import Mathlib

/-!
Verification of the agentic request-handling core of the mise kitchen-assistant
backend: request classifier, rate limiter, planner context gathering, plan
validator, plan executor and the orchestrator control loop.  Python sources are
shallowly embedded: pure functions become Lean functions, regular expressions
become terms of a small derivative-based matcher, wall-clock timestamps become
rationals, exceptions become `Except`, and external collaborators (database
fetches, LLM calls, step handlers) become explicit oracle parameters.
-/

namespace Mise

/-- Python whitespace characters matched by the regex class backslash-s and
stripped by str.strip (ASCII fragment): space, tab, newline, carriage return,
vertical tab, form feed. -/
def isPySpace (c : Char) : Bool :=
  c == ' ' || c == Char.ofNat 9 || c == Char.ofNat 10 ||
  c == Char.ofNat 13 || c == Char.ofNat 11 || c == Char.ofNat 12

/-- ASCII lowercasing of one character, modelling Python str.lower on the
ASCII fragment. -/
def pyLowerChar (c : Char) : Char :=
  if 'A' ≤ c && c ≤ 'Z' then Char.ofNat (c.toNat + 32) else c

/-- Model of Python `message.lower().strip()` on a character list. -/
def pyLowerStrip (s : List Char) : List Char :=
  (((s.map pyLowerChar).dropWhile isPySpace).reverse.dropWhile isPySpace).reverse

/-- The apostrophe character, written by code point to keep sources plain. -/
def aposC : Char := Char.ofNat 39

/-- A character class of the source regexes: a literal character, the dot
(any character except newline), or the whitespace class. -/
inductive CC where
  | chr (c : Char)
  | anyNoNL
  | pws
deriving DecidableEq, Repr

/-- Whether a character belongs to a character class (dot excludes newline,
as in Python without DOTALL). -/
def CC.test : CC → Char → Bool
  | .chr a, c => a == c
  | .anyNoNL, c => !(c == Char.ofNat 10)
  | .pws, c => isPySpace c

/-- Regular expressions over `Char`, covering the constructs used by the
classifier patterns: literals, dot, whitespace class, concatenation,
alternation and Kleene star. -/
inductive Rx where
  | fail
  | eps
  | cls (t : CC)
  | seq (a b : Rx)
  | alt (a b : Rx)
  | star (r : Rx)
deriving DecidableEq, Repr

/-- Smart concatenation (keeps derivatives small). -/
def rseq : Rx → Rx → Rx
  | .fail, _ => .fail
  | _, .fail => .fail
  | .eps, b => b
  | a, .eps => a
  | a, b => .seq a b

/-- Smart alternation (keeps derivatives small). -/
def ralt : Rx → Rx → Rx
  | .fail, b => b
  | a, .fail => a
  | a, b => .alt a b

/-- Whether a regex accepts the empty word. -/
def nullable : Rx → Bool
  | .fail => false
  | .eps => true
  | .cls _ => false
  | .seq a b => nullable a && nullable b
  | .alt a b => nullable a || nullable b
  | .star _ => true

/-- Brzozowski derivative of a regex by one character. -/
def rderiv (r : Rx) (c : Char) : Rx :=
  match r with
  | .fail => .fail
  | .eps => .fail
  | .cls t => if t.test c then .eps else .fail
  | .seq a b =>
      if nullable a then ralt (rseq (rderiv a c) b) (rderiv b c)
      else rseq (rderiv a c) b
  | .alt a b => ralt (rderiv a c) (rderiv b c)
  | .star r => rseq (rderiv r c) (.star r)

/-- Whether some prefix of the word matches the regex; this is Python
re.match / an anchored re.search. -/
def preMatch (r : Rx) : List Char → Bool
  | [] => nullable r
  | c :: s => nullable r || preMatch (rderiv r c) s

/-- Whether the regex matches at some position of the word; this is Python
re.search for unanchored patterns. -/
def searchRx (r : Rx) : List Char → Bool
  | [] => preMatch r []
  | c :: s => preMatch r (c :: s) || searchRx r s

/-- Literal regex for a word. -/
def litRx : List Char → Rx
  | [] => .eps
  | c :: s => .seq (.cls (.chr c)) (litRx s)

/-- Literal regex for a string literal. -/
def litS (s : String) : Rx := litRx s.data

/-- The whitespace class regex (backslash-s). -/
def wsRx : Rx := .cls .pws

/-- Dot-star: any run of non-newline characters. -/
def dotStar : Rx := .star (.cls .anyNoNL)

/-- Dot-plus: a nonempty run of non-newline characters. -/
def dotPlus : Rx := .seq (.cls .anyNoNL) dotStar

/-- One or more whitespace characters (backslash-s +). -/
def wsPlus : Rx := .seq wsRx (.star wsRx)

/-- Optional regex (question mark). -/
def rxOpt (r : Rx) : Rx := .alt r .eps

/-- Alternation of a list of regexes (a group of pipe-separated branches). -/
def rxAlts : List Rx → Rx
  | [] => .fail
  | [r] => r
  | r :: rs => .alt r (rxAlts rs)

/-- A source pattern: `anchored` records a leading caret (match at position
zero only), otherwise the pattern is searched at every position. -/
structure Pat where
  anchored : Bool
  rx : Rx
deriving DecidableEq, Repr

/-- Running one pattern against a message, as re.search does in `classify`
(a leading caret makes re.search behave as an anchored match). -/
def matchPat (s : List Char) (p : Pat) : Bool :=
  if p.anchored then preMatch p.rx s else searchRx p.rx s

/-- GREETING_PATTERNS of RequestClassifier: the four source regexes are
caret-anchored, dollar-terminated alternations of fixed words under re.match,
so together they accept exactly this finite set of strings. -/
def greetingLits : List (List Char) :=
  ["hi".data, "hello".data, "hey".data, "howdy".data, "greetings".data,
   "thanks".data, "thank you".data, "thx".data,
   "bye".data, "goodbye".data, "see you".data, "later".data,
   "ok".data, "okay".data, "sure".data, "yes".data, "no".data,
   "yep".data, "nope".data, "maybe".data]

/-- Whether the (lowercased, trimmed) message is exactly one of the greeting
words. -/
def greetingMatch (s : List Char) : Bool := greetingLits.any (fun g => s == g)

/-- An anchored pattern of the form caret-verb-whitespace, e.g. `^add\s`. -/
def verbStart (v : String) : Pat := ⟨true, .seq (litRx v.data) wsRx⟩

/-- ACTION_PATTERNS of RequestClassifier, in source order. -/
def ACTION_PATTERNS : List Pat :=
  [verbStart "add",
   verbStart "remove",
   verbStart "delete",
   verbStart "buy",
   verbStart "purchase",
   verbStart "order",
   ⟨true, .seq (litS "get") (.seq wsPlus (.seq (rxOpt (.seq (litS "me") wsPlus))
      (litS "some")))⟩,
   verbStart "put",
   verbStart "update",
   verbStart "change",
   verbStart "set",
   ⟨false, .seq (litS "add ") (.seq dotPlus (.seq (litS " to ") (.seq dotPlus
      (.seq (litS " ") (rxAlts [litS "list", litS "inventory", litS "pantry"])))))⟩,
   ⟨false, .seq (rxAlts [litS "add", litS "put", litS "remove", litS "delete"])
      (.seq (litS " ") (.seq dotPlus (.seq (litS " ")
        (rxAlts [litS "shopping", litS "grocery", litS "my"]))))⟩,
   ⟨false, litS "i need"⟩,
   ⟨false, .seq (litS "i want to ")
      (rxAlts [litS "add", litS "buy", litS "get", litS "order"])⟩,
   ⟨false, .seq (litS "can you ")
      (rxAlts [litS "add", litS "buy", litS "get", litS "order", litS "put",
               litS "remove", litS "delete"])⟩,
   ⟨false, .seq (litS "please ")
      (rxAlts [litS "add", litS "buy", litS "get", litS "order", litS "put",
               litS "remove", litS "delete"])⟩]

/-- QUESTION_PATTERNS of RequestClassifier, in source order. -/
def QUESTION_PATTERNS : List Pat :=
  [⟨false, litS "what should i"⟩,
   ⟨false, .seq (litS "what can i ")
      (rxAlts [litS "cook", litS "make", litS "prepare", litS "do"])⟩,
   ⟨false, litS "what could i"⟩,
   ⟨false, rxAlts [litS "suggest", litS "recommend"]⟩,
   ⟨false, .seq (litS "what") (.seq dotStar (.seq (litS "make")
      (.seq dotStar (litS "for"))))⟩,
   ⟨false, .seq (litS "any ")
      (rxAlts [litS "idea", litS "suggestion", litS "recommendation"])⟩,
   ⟨false, .seq (litS "help me ")
      (rxAlts [litS "decide", litS "choose", litS "plan"])⟩,
   ⟨false, .seq (litS "meal") (.seq dotStar (litS "plan"))⟩]

/-- The head group shared by the query patterns:
`(what('?s| is| are)?|show( me)?|see|view|check|list|display)`. -/
def viewHead : Rx :=
  rxAlts
    [.seq (litS "what")
       (rxOpt (rxAlts [.seq (rxOpt (.cls (.chr aposC))) (litS "s"),
                       litS " is", litS " are"])),
     .seq (litS "show") (rxOpt (litS " me")),
     litS "see", litS "view", litS "check", litS "list", litS "display"]

/-- The head group of the preferences query patterns (no list/display). -/
def prefHead : Rx :=
  rxAlts
    [.seq (litS "what")
       (rxOpt (rxAlts [.seq (rxOpt (.cls (.chr aposC))) (litS "s"),
                       litS " is", litS " are"])),
     .seq (litS "show") (rxOpt (litS " me")),
     litS "see", litS "view", litS "check"]

/-- QUERY_PATTERNS of RequestClassifier: entity name paired with its pattern
list, in source (insertion) order. -/
def QUERY_TABLE : List (String × List Pat) :=
  [("shopping_list",
    [⟨false, .seq viewHead (.seq dotStar
       (.seq (rxAlts [litS "shopping", litS "grocery", litS "shop"])
         (.seq dotStar (litS "list"))))⟩,
     ⟨false, .seq (litS "shopping") (.seq dotStar (litS "list"))⟩,
     ⟨false, .seq (litS "what") (.seq dotStar (.seq (litS "need")
        (.seq dotStar (litS "buy"))))⟩,
     ⟨false, .seq (litS "what") (.seq dotStar (.seq (litS "on")
        (.seq dotStar (litS "list"))))⟩]),
   ("inventory",
    [⟨false, .seq viewHead (.seq dotStar
       (rxAlts [litS "pantry", litS "inventory", litS "fridge",
                litS "kitchen", litS "have", litS "got"]))⟩,
     ⟨false, .seq (litS "what") (.seq dotStar (.seq (litS "ingredient")
        (.seq (rxOpt (litS "s")) (.seq dotStar (litS "have")))))⟩,
     ⟨false, .seq (litS "what")
        (.seq (rxAlts [.seq (rxOpt (.cls (.chr aposC))) (litS "s"), litS " is"])
          (.seq dotStar (.seq (litS "in") (.seq dotStar
            (.seq (rxOpt (litS "my "))
              (rxAlts [litS "pantry", litS "fridge", litS "kitchen"]))))))⟩,
     ⟨false, litS "do i have"⟩]),
   ("leftovers",
    [⟨false, .seq viewHead (.seq dotStar (litS "leftover"))⟩,
     ⟨false, .seq (litS "any") (.seq dotStar (litS "leftover"))⟩,
     ⟨false, litS "leftover"⟩]),
   ("preferences",
    [⟨false, .seq prefHead (.seq dotStar
       (rxAlts [litS "preference", litS "diet", litS "restriction",
                litS "goal"]))⟩,
     ⟨false, .seq (litS "my") (.seq dotStar (litS "preference"))⟩,
     ⟨false, .seq (litS "dietary") (.seq dotStar (litS "restriction"))⟩])]

/-- Request categories of the classifier. -/
inductive RequestType where
  | greeting
  | query
  | action
  | question
  | unknown
deriving DecidableEq, Repr

/-- Result of classifying a user request. -/
structure ClassifiedRequest where
  request_type : RequestType
  intent : String
  target_entity : Option String
  requires_context : Bool
  requires_llm : Bool
deriving DecidableEq, Repr

/-- RequestClassifier.classify: ordered first-match-wins routing of a message
into greeting / action / question / query / unknown tiers. -/
def classify (message : String) : ClassifiedRequest :=
  let ml := pyLowerStrip message.data
  if greetingMatch ml then
    ⟨.greeting, "greeting", none, false, false⟩
  else if ACTION_PATTERNS.any (matchPat ml) then
    ⟨.action, "perform action", none, true, true⟩
  else if QUESTION_PATTERNS.any (matchPat ml) then
    ⟨.question, "get recommendation", none, true, true⟩
  else
    match QUERY_TABLE.findSome?
        (fun et => if et.2.any (matchPat ml) then some et.1 else none) with
    | some ent => ⟨.query, "view " ++ ent, some ent, true, false⟩
    | none => ⟨.unknown, "unknown", none, true, true⟩

end Mise

namespace Mise

/-! The shared plan data model.  The module defining it
(orchestration/action_plan.py) is not among the sources — only its callers
are — so these definitions are modelled from §3 of the specification. -/

/-- Modelled from the spec: status of a whole ActionPlan (the action_plan
module is missing from the sources); §3 lists DRAFT, AWAITING_APPROVAL,
APPROVED, EXECUTING, COMPLETED, FAILED and CANCELLED. -/
inductive PlanStatus where
  | draft
  | awaiting_approval
  | approved
  | executing
  | completed
  | failed
  | cancelled
deriving DecidableEq, Repr

/-- Modelled from the spec: status of one plan step (PENDING, EXECUTING,
COMPLETED, FAILED). -/
inductive PlanStepStatus where
  | pending
  | executing
  | completed
  | failed
deriving DecidableEq, Repr

/-- One item reference inside step parameters: Python passes either a dict
with an `item` or `name` key or a bare string. -/
structure ItemDict where
  item : Option String := none
  name : Option String := none
deriving DecidableEq, Repr

/-- A step-parameter item: dict-shaped or plain string, as the validator and
executor accept both. -/
inductive PItem where
  | dict (d : ItemDict)
  | str (s : String)
deriving DecidableEq, Repr

/-- The parameter mapping of a step, restricted to the keys the core reads
(`items`, `item_names`, `ingredients`); `none` models an absent key. -/
structure Params where
  items : Option (List PItem) := none
  item_names : Option (List String) := none
  ingredients : Option (List String) := none
deriving DecidableEq, Repr

/-- Modelled from the spec: one unit of work inside a plan (§3 PlanStep).
Timestamps are rationals; `none` models Python None. -/
structure PlanStep where
  id : String := ""
  action : String
  parameters : Params := {}
  description : String := "Perform action"
  reason : String := ""
  estimated_cost : ℚ := 0
  status : PlanStepStatus := .pending
  result : Option String := none
  error : Option String := none
  executed_at : Option ℚ := none
deriving DecidableEq, Repr

/-- Modelled from the spec: the unit that is validated, approved and executed
(§3 ActionPlan); `contextSummary` stands for the serializable context
snapshot, which no claim inspects. -/
structure ActionPlan where
  id : String := ""
  goal : String
  contextSummary : String := ""
  steps : List PlanStep := []
  status : PlanStatus := .draft
  requires_approval : Bool := false
  approval_reason : Option String := none
  execution_summary : Option String := none
  completed_at : Option ℚ := none
deriving DecidableEq, Repr

/-- Modelled from the spec: derived total cost, the sum of the step costs. -/
def ActionPlan.total_estimated_cost (p : ActionPlan) : ℚ :=
  (p.steps.map (fun s => s.estimated_cost)).sum

/-- Modelled from the spec: the steps currently in COMPLETED status. -/
def ActionPlan.get_completed_steps (p : ActionPlan) : List PlanStep :=
  p.steps.filter (fun s => s.status == .completed)

/-- Modelled from the spec: the steps currently in FAILED status. -/
def ActionPlan.get_failed_steps (p : ActionPlan) : List PlanStep :=
  p.steps.filter (fun s => s.status == .failed)

/-- Modelled from the spec: the conversational rendering of a plan shown in
approval prompts; its exact text is unspecified and no claim inspects it. -/
def ActionPlan.to_conversational (p : ActionPlan) : String :=
  "Here is my plan: " ++ p.goal ++ "\n" ++
    String.intercalate "\n" (p.steps.map (fun s => "- " ++ s.description))

/-- A shopping-list row as the orchestrator reads it: keys `item`,
`quantity`, `unit`; quantities are kept as display strings and the empty
string models a falsy/absent value. -/
structure ShopItem where
  item : Option String := none
  quantity : String := ""
  unit : String := ""
deriving DecidableEq, Repr

/-- An inventory row (`item_name`/`name`, `quantity`, `unit`). -/
structure InvItem where
  item_name : Option String := none
  name : Option String := none
  quantity : String := ""
  unit : String := ""
deriving DecidableEq, Repr

/-- A leftovers row (`meal_name`, `servings`). -/
structure LeftItem where
  meal_name : Option String := none
  servings : Option String := none
deriving DecidableEq, Repr

/-- The preferences mapping restricted to the keys the core reads. -/
structure Prefs where
  dietary_restrictions : List String := []
  health_goals : List String := []
  family_size : Option Nat := none
  cuisine_preferences : List String := []
deriving DecidableEq, Repr

/-- Modelled from the spec: the per-invocation context snapshot (§3
AgentContext) with zero-value defaults (empty lists, absent preferences,
placeholder budget fields). -/
structure AgentContext where
  user_id : String
  preferences : Option Prefs := none
  inventory : List InvItem := []
  leftovers : List LeftItem := []
  shopping_list : List ShopItem := []
  wallet_balance : Option ℚ := none
  spending_limit_daily : ℚ := 0
  spent_today : ℚ := 0
  gathered_at : Option ℚ := none
deriving DecidableEq, Repr

/-- Modelled from the spec: remaining daily budget, read by the validator. -/
def AgentContext.get_remaining_budget (c : AgentContext) : ℚ :=
  c.spending_limit_daily - c.spent_today

/-! String helpers mirroring the Python operations the core uses. -/

/-- String-level Python str.lower (ASCII fragment). -/
def pyLowerS (s : String) : String := String.mk (s.data.map pyLowerChar)

/-- Python str.strip on a character list. -/
def pyStrip (s : List Char) : List Char :=
  ((s.dropWhile isPySpace).reverse.dropWhile isPySpace).reverse

/-- String-level Python str.strip. -/
def pyStripS (s : String) : String := String.mk (pyStrip s.data)

/-- String-level `message.lower().strip()`. -/
def pyLowerStripS (s : String) : String := String.mk (pyLowerStrip s.data)

/-- Substring occurrence on character lists (Python `in` on strings). -/
def hasSub (pat : List Char) : List Char → Bool
  | [] => pat.isEmpty
  | c :: t => pat.isPrefixOf (c :: t) || hasSub pat t

/-- Python `sub in s` for strings. -/
def strContains (sub s : String) : Bool := hasSub sub.data s.data

/-- The apostrophe as a string, for building the user-facing texts. -/
def aposS : String := String.mk [aposC]

/-! AgentPlanner.gather_context (orchestration/planner.py). -/

/-- AgentPlanner.gather_context: the four persistence fetches are oracle
`Except` values; a failing fetch leaves the corresponding field at its
default, mirroring the four independent try/except blocks, and the result is
timestamped with the supplied clock. -/
def gather_context (user_id : String) (now : ℚ)
    (fetchPrefs : Except String (Option Prefs))
    (fetchInv : Except String (List InvItem))
    (fetchLeft : Except String (List LeftItem))
    (fetchShop : Except String (List ShopItem)) : AgentContext :=
  let c0 : AgentContext := { user_id := user_id }
  let c1 := match fetchPrefs with
    | .ok v => { c0 with preferences := v }
    | .error _ => c0
  let c2 := match fetchInv with
    | .ok v => { c1 with inventory := v }
    | .error _ => c1
  let c3 := match fetchLeft with
    | .ok v => { c2 with leftovers := v }
    | .error _ => c2
  let c4 := match fetchShop with
    | .ok v => { c3 with shopping_list := v }
    | .error _ => c3
  { c4 with gathered_at := some now }

/-! AgentValidator (orchestration/validator.py). -/

/-- Result of validating a plan (`modified_plan` is always None in the
source). -/
structure ValidationResult where
  is_valid : Bool
  requires_approval : Bool
  approval_reason : Option String
  warnings : List String
  errors : List String
  modified_plan : Option ActionPlan := none
deriving DecidableEq, Repr

/-- ValidationResult.to_message: the user-facing rendering of errors,
warnings and the approval reason. -/
def ValidationResult.to_message (r : ValidationResult) : String :=
  let parts :=
    (if r.errors.isEmpty then []
     else ["❌ **I found some issues with this plan:**"] ++
       r.errors.map (fun e => "   • " ++ e)) ++
    (if r.warnings.isEmpty then []
     else ["⚠️ **A few things to note:**"] ++
       r.warnings.map (fun w => "   • " ++ w)) ++
    (if r.requires_approval && (match r.approval_reason with
        | some s => s ≠ ""
        | none => false) then
       ["\n🔐 **I need your approval:** " ++ r.approval_reason.getD ""]
     else [])
  if parts.isEmpty then "✅ Plan looks good!"
  else String.intercalate "\n" parts

/-- Two-decimal display of a monetary amount, standing in for Python float
formatting inside user-facing budget strings (no claim inspects these
strings). -/
def moneyStr (q : ℚ) : String := toString (round (q * 100) : ℤ) ++ "c"

/-- Internal result of the budget check. -/
structure BudgetCheckResult where
  requires_approval : Bool
  reason : Option String
  warnings : List String
  errors : List String
deriving DecidableEq, Repr

/-- AgentValidator._check_budget. -/
def check_budget (plan : ActionPlan) (context : AgentContext) :
    BudgetCheckResult :=
  let total_cost := plan.total_estimated_cost
  if total_cost > 0 then
    let remaining_budget := context.get_remaining_budget
    let (ra, reason, warnings) :=
      if total_cost > remaining_budget then
        if total_cost > context.spending_limit_daily then
          (true,
           some ("This will cost $" ++ moneyStr total_cost ++
             ", which is over your $" ++ moneyStr context.spending_limit_daily ++
             " daily limit"),
           ([] : List String))
        else
          (false, none,
           ["This purchase ($" ++ moneyStr total_cost ++
             ") will use most of your remaining budget for today ($" ++
             moneyStr remaining_budget ++ ")"])
      else (false, none, [])
    let errors :=
      match context.wallet_balance with
      | some wb =>
          if total_cost > wb then
            ["Insufficient funds: need $" ++ moneyStr total_cost ++
             " but only have $" ++ moneyStr wb]
          else []
      | none => []
    ⟨ra, reason, warnings, errors⟩
  else ⟨false, none, [], []⟩

/-- The dangerous description keywords that force an approval request. -/
def REQUIRE_APPROVAL_KEYWORDS : List String :=
  ["delete all", "remove all", "clear", "reset"]

/-- The item count the safety check reads:
`params.get("items", params.get("item_names", []))`. -/
def safetyItemsLen (p : Params) : Nat :=
  match p.items with
  | some l => l.length
  | none => (p.item_names.getD []).length

/-- One iteration of the safety loop over a step, carrying
(requires_approval, reason, warnings). -/
def safetyStep (st : Bool × Option String × List String) (step : PlanStep) :
    Bool × Option String × List String :=
  let (ra, reason, warnings) := st
  let action := pyLowerS step.action
  let description := pyLowerS step.description
  let (ra1, reason1, warnings1) :=
    if strContains "delete" action || strContains "remove" action then
      let n := safetyItemsLen step.parameters
      if n > 5 then
        (true, some ("This will remove " ++ toString n ++ " items at once"),
         warnings ++ ["Bulk removal: " ++ toString n ++ " items will be deleted"])
      else (ra, reason, warnings)
    else (ra, reason, warnings)
  match REQUIRE_APPROVAL_KEYWORDS.find? (fun k => strContains k description) with
  | some k =>
      (true,
       some ("This action involves " ++ aposS ++ k ++ aposS ++
         " which requires confirmation"),
       warnings1)
  | none => (ra1, reason1, warnings1)

/-- Internal result of the safety check. -/
structure SafetyCheckResult where
  requires_approval : Bool
  reason : Option String
  warnings : List String
  errors : List String
deriving DecidableEq, Repr

/-- AgentValidator._check_safety: bulk delete/remove operations and dangerous
description keywords require approval. -/
def check_safety (plan : ActionPlan) : SafetyCheckResult :=
  let (ra, reason, warnings) := plan.steps.foldl safetyStep (false, none, [])
  ⟨ra, reason, warnings, []⟩

/-- Normalized item name used by the duplicate check
(lowercased, stripped). -/
def normItemName : PItem → String
  | .dict d => pyStripS (pyLowerS (d.item.getD (d.name.getD "")))
  | .str s => pyStripS (pyLowerS s)

/-- AgentValidator._check_duplicates: warning-only check for items already on
the shopping list. -/
def check_duplicates (plan : ActionPlan) (context : AgentContext) :
    List String :=
  let existing := context.shopping_list.map
    (fun item => pyStripS (pyLowerS (item.item.getD "")))
  plan.steps.foldl (fun ws step =>
    if step.action == "addToShoppingList" ||
        step.action == "createShoppingListItems" then
      ws ++ ((step.parameters.items.getD []).filterMap (fun it =>
        let n := normItemName it
        if n ≠ "" && existing.contains n then
          some (aposS ++ n ++ aposS ++ " is already on your shopping list")
        else none))
    else ws) []

/-- The static restriction-to-conflicting-keyword table of the preference
check. -/
def RESTRICTION_CONFLICTS : List (String × List String) :=
  [("vegetarian", ["meat", "chicken", "beef", "pork", "fish", "bacon"]),
   ("vegan", ["meat", "chicken", "beef", "pork", "fish", "dairy", "milk",
              "cheese", "eggs", "butter"]),
   ("gluten-free", ["bread", "pasta", "flour", "wheat"]),
   ("lactose-free", ["milk", "cheese", "butter", "cream", "yogurt"]),
   ("nut-free", ["peanut", "almond", "walnut", "cashew", "pistachio"])]

/-- AgentValidator._check_preferences: warning-only substring heuristic
against declared dietary restrictions. -/
def check_preferences (plan : ActionPlan) (context : AgentContext) :
    List String :=
  match context.preferences with
  | none => []
  | some prefs =>
      if prefs.dietary_restrictions.isEmpty then []
      else
        let restrictions_lower := prefs.dietary_restrictions.map pyLowerS
        plan.steps.foldl (fun ws step =>
          if step.action == "addToShoppingList" ||
              step.action == "createShoppingListItems" ||
              step.action == "suggestMeal" then
            let items0 := step.parameters.items.getD []
            let items :=
              if items0.isEmpty then
                (step.parameters.ingredients.getD []).map
                  (fun i => PItem.dict ⟨some i, none⟩)
              else items0
            items.foldl (fun ws2 it =>
              let item_name :=
                match it with
                | .dict d => pyLowerS (d.item.getD (d.name.getD ""))
                | .str s => pyLowerS s
              ws2 ++ restrictions_lower.filterMap (fun r =>
                match RESTRICTION_CONFLICTS.lookup r with
                | some conflicts =>
                    if conflicts.any (fun cf => strContains cf item_name) then
                      some (aposS ++ item_name ++ aposS ++ " might not be " ++
                        r ++ " (you listed " ++ aposS ++ r ++ aposS ++
                        " as a dietary restriction)")
                    else none
                | none => none)) ws
          else ws) []

/-- Interpolation of a possibly-absent reason into a Python f-string. -/
def optStr : Option String → String
  | some s => s
  | none => "None"

/-- AgentValidator.validate_plan: runs the four checks, merges their outputs
and updates the plan status (the mutated plan is returned alongside the
result). -/
def validate_plan (plan : ActionPlan) (context : AgentContext) :
    ValidationResult × ActionPlan :=
  let budget := check_budget plan context
  let (ra1, reason1) :=
    if budget.requires_approval then (true, budget.reason) else (false, none)
  let safety := check_safety plan
  let (ra2, reason2) :=
    if safety.requires_approval then
      (true,
       match reason1 with
       | some r =>
           if r ≠ "" then some (r ++ " Also, " ++ optStr safety.reason)
           else safety.reason
       | none => safety.reason)
    else (ra1, reason1)
  let warnings := budget.warnings ++ safety.warnings ++
    check_duplicates plan context ++ check_preferences plan context
  let errors := budget.errors ++ safety.errors
  let (plan2, is_valid) :=
    if !errors.isEmpty then
      ({ plan with status := .failed }, false)
    else if ra2 then
      ({ plan with status := .awaiting_approval,
                   requires_approval := true,
                   approval_reason := reason2 }, true)
    else
      ({ plan with status := .approved }, true)
  (⟨is_valid, ra2, reason2, warnings, errors, none⟩, plan2)

/-! AgentExecutor (orchestration/executor.py). -/

/-- The handler layer the executor delegates to:
`(action name, parameters) → result text`, raising as `.error`. -/
abbrev Handler := String → Params → Except String String

/-- One audit-log entry appended by execute_plan. -/
structure LogEntry where
  step_id : String
  action : String
  status : String
  timestamp : ℚ
  result_preview : Option String := none
  error : Option String := none
deriving DecidableEq, Repr

/-- The outcome of execute_plan: the mutated plan, the audit-log entries
appended during this call, the handler invocations in order, and the
progress-callback notifications `(step id, phase)` in order. -/
structure ExecOut where
  plan : ActionPlan
  log : List LogEntry
  calls : List String
  events : List (String × String)
deriving DecidableEq, Repr

/-- Execution of one step inside the loop of execute_plan: transition to
EXECUTING, notify, delegate to the handler, then transition to COMPLETED or
FAILED with timestamp, audit entry and notification.  The clock is the single
`now` supplied to execute_plan. -/
def execStep (handler : Handler) (now : ℚ) (step : PlanStep) :
    PlanStep × LogEntry × List (String × String) :=
  match handler step.action step.parameters with
  | .ok result =>
      ({ step with status := .completed, result := some result,
                   executed_at := some now },
       { step_id := step.id, action := step.action, status := "completed",
         timestamp := now,
         result_preview :=
           if result ≠ "" then some (String.mk (result.data.take 200))
           else none },
       [(step.id, "executing"), (step.id, "completed")])
  | .error e =>
      ({ step with status := .failed, error := some e,
                   executed_at := some now },
       { step_id := step.id, action := step.action, status := "failed",
         timestamp := now, error := some e },
       [(step.id, "executing"), (step.id, "failed")])

/-- AgentExecutor.execute_plan: refuses plans not in APPROVED status
(returned unchanged, no handler call, nothing logged); otherwise runs every
step in order with per-step failure isolation and sets the final status and
summary. -/
def execute_plan (handler : Handler) (plan : ActionPlan) (now : ℚ) : ExecOut :=
  if plan.status ≠ .approved then ⟨plan, [], [], []⟩
  else
    let plan0 := { plan with status := .executing }
    let folded := plan0.steps.foldl
      (fun (acc : List PlanStep × List LogEntry × List String ×
                  List (String × String)) step =>
        let (steps, log, calls, evs) := acc
        let (step2, entry, evs2) := execStep handler now step
        (steps ++ [step2], log ++ [entry], calls ++ [step.action], evs ++ evs2))
      ([], [], [], [])
    let (steps2, log, calls, evs) := folded
    let plan1 := { plan0 with steps := steps2 }
    let completed := plan1.get_completed_steps
    let failed := plan1.get_failed_steps
    let (st, summary) :=
      if failed.isEmpty then
        (PlanStatus.completed,
         "All " ++ toString completed.length ++ " steps completed successfully")
      else if completed.isEmpty then
        (PlanStatus.failed, "All " ++ toString failed.length ++ " steps failed")
      else
        (PlanStatus.completed,
         toString completed.length ++ " steps succeeded, " ++
           toString failed.length ++ " failed")
    ⟨{ plan1 with status := st, execution_summary := some summary,
                  completed_at := some now }, log, calls, evs⟩

/-! RateLimiter (orchestration/rate_limiter.py). -/

/-- The two sliding-window queues of call timestamps (seconds, as
rationals). -/
structure RLState where
  minute_requests : List ℚ := []
  day_requests : List ℚ := []
deriving DecidableEq, Repr

/-- The rate limiter caps (source defaults: 10 per minute, 1000 per day). -/
structure RLConfig where
  max_requests_per_minute : Nat := 10
  max_requests_per_day : Nat := 1000
deriving DecidableEq, Repr

/-- RateLimiter.wait_if_needed with an explicit clock: prune both windows,
block (modelled as the returned wait, with the post-sleep clock `now + wait`)
when the minute window is full, then fail fast with RateLimitExceededError
(the `.error` case) when the day window is full, else record the request in
both queues and return the seconds waited. -/
def wait_if_needed (cfg : RLConfig) (st : RLState) (now : ℚ) :
    Except Unit (ℚ × RLState) :=
  let mq := st.minute_requests.dropWhile (fun t => t < now - 60)
  let dq := st.day_requests.dropWhile (fun t => t < now - 86400)
  let wait : ℚ :=
    if cfg.max_requests_per_minute ≤ mq.length then
      match mq with
      | oldest :: _ => max 0 (oldest + 60 - now)
      | [] => 0
    else 0
  let now2 := now + wait
  let mq2 := if 0 < wait then mq.dropWhile (fun t => t < now2 - 60) else mq
  if cfg.max_requests_per_day ≤ dq.length then .error ()
  else .ok (wait, ⟨mq2 ++ [now2], dq ++ [now2]⟩)

/-- A sequence of wait_if_needed calls at the given clock readings, returning
the list of waits. -/
def runRL (cfg : RLConfig) : RLState → List ℚ → Except Unit (List ℚ × RLState)
  | st, [] => .ok ([], st)
  | st, t :: ts =>
      match wait_if_needed cfg st t with
      | .error e => .error e
      | .ok (w, st1) =>
          match runRL cfg st1 ts with
          | .error e => .error e
          | .ok (ws, st2) => .ok (w :: ws, st2)

/-! Orchestrator (orchestration/orchestrator.py). -/

/-- The per-user pending-plan map (Python dict keyed by user id). -/
abbrev PendingMap := List (String × ActionPlan)

/-- Dict read: the plan pending for a user, if any. -/
def pmGet (m : PendingMap) (k : String) : Option ActionPlan :=
  match m.find? (fun p => p.1 == k) with
  | some p => some p.2
  | none => none

/-- Dict assignment: stores the plan for the user, overwriting any existing
entry. -/
def pmSet (m : PendingMap) (k : String) (v : ActionPlan) : PendingMap :=
  (m.filter (fun p => p.1 != k)) ++ [(k, v)]

/-- Dict deletion of the user's entry. -/
def pmDel (m : PendingMap) (k : String) : PendingMap :=
  m.filter (fun p => p.1 != k)

/-- Observable effects of processing one message: persistence-layer context
fetches, rate-limiter waits, the three kinds of LLM call, plan validation,
plan execution and individual handler invocations. -/
inductive Eff where
  | contextFetch
  | rateLimitWait
  | llmPlan
  | validate
  | execute
  | llmQuestion
  | llmSummary
  | handlerCall (action : String)
deriving DecidableEq, Repr

/-- Exceptions that can cross orchestrator-internal boundaries:
RateLimitExceededError, or any other exception with its message. -/
inductive OrchErr where
  | rateLimit
  | other (msg : String)
deriving DecidableEq, Repr

/-- The collaborator oracle for one process_message invocation: clock,
persistence fetch outcomes, the outcome of each potential rate-limiter call,
the plan produced by AgentPlanner.create_plan (which never raises: parse or
call failures already yield an empty FAILED plan), the LLM outcomes for
question answering and completion summarizing, and the handler layer. -/
structure Env where
  now : ℚ := 0
  fetchPrefs : Except String (Option Prefs) := .ok none
  fetchInv : Except String (List InvItem) := .ok []
  fetchLeft : Except String (List LeftItem) := .ok []
  fetchShop : Except String (List ShopItem) := .ok []
  rlAction : Except Unit ℚ := .ok 0
  rlQuestion : Except Unit ℚ := .ok 0
  rlSummary : Except Unit ℚ := .ok 0
  planned : ActionPlan := { goal := "" }
  questionLlm : Except String String := .ok ""
  summaryLlm : Except String String := .ok ""
  handler : Handler := fun _ _ => .ok ""

/-- The response dict of process_message, restricted to the fields the claims
inspect. -/
structure OrchResponse where
  text : String
  awaiting_approval : Bool := false
deriving DecidableEq, Repr

/-- Outcome of one process_message call: response, pending-plan map after the
call, and the effect trace (the trace is recorded for the successful control
path; no claim consults it on the exceptional path). -/
structure POut where
  resp : OrchResponse
  pending : PendingMap
  trace : List Eff
deriving Repr

/-- The static greeting lookup table of _handle_greeting. -/
def greetingResponses : List (String × String) :=
  [("hi", "Hi there! 👋 I" ++ aposS ++
      "m Mise, your kitchen assistant. How can I help you today?"),
   ("hello", "Hello! 🍳 Ready to help with meal planning, shopping lists, or recipe ideas. What would you like to do?"),
   ("hey", "Hey! What" ++ aposS ++ "s cooking? 😊"),
   ("thanks", "You" ++ aposS ++
      "re welcome! Let me know if you need anything else."),
   ("thank you", "Happy to help! Is there anything else I can do for you?"),
   ("bye", "Goodbye! Happy cooking! 🍽️"),
   ("goodbye", "See you next time! Enjoy your meals!")]

/-- Orchestrator._handle_greeting: static lookup with a default, no API
calls. -/
def handle_greeting (message : String) : String :=
  match greetingResponses.lookup (pyLowerStripS message) with
  | some r => r
  | none => "Hello! How can I help you with your kitchen today?"

/-- Orchestrator._format_shopping_list. -/
def format_shopping_list (items : List ShopItem) : String :=
  if items.isEmpty then
    "📝 Your shopping list is empty!\n\nSay something like \"add milk to my shopping list\" to get started."
  else
    let lines := ["📝 **Your Shopping List:**\n"] ++
      items.map (fun item =>
        let name := item.item.getD "Unknown"
        if item.quantity ≠ "" && item.unit ≠ "" then
          "• " ++ name ++ " - " ++ item.quantity ++ " " ++ item.unit
        else if item.quantity ≠ "" then
          "• " ++ name ++ " (" ++ item.quantity ++ ")"
        else "• " ++ name) ++
      ["\n**Total: " ++ toString items.length ++ " items**"]
    String.intercalate "\n" lines

/-- Orchestrator._format_inventory (first 20 items shown). -/
def format_inventory (items : List InvItem) : String :=
  if items.isEmpty then
    "🍳 Your pantry is empty!\n\nAdd ingredients by saying \"add chicken to my inventory\"."
  else
    let lines := ["🍳 **Your Pantry:**\n"] ++
      (items.take 20).map (fun item =>
        let name := item.item_name.getD (item.name.getD "Unknown")
        if item.quantity ≠ "" && item.unit ≠ "" then
          "• " ++ name ++ " - " ++ item.quantity ++ " " ++ item.unit
        else if item.quantity ≠ "" then
          "• " ++ name ++ " (" ++ item.quantity ++ ")"
        else "• " ++ name) ++
      (if 20 < items.length then
        ["\n...and " ++ toString (items.length - 20) ++ " more items"]
       else []) ++
      ["\n**Total: " ++ toString items.length ++ " ingredients**"]
    String.intercalate "\n" lines

/-- Orchestrator._format_leftovers. -/
def format_leftovers (items : List LeftItem) : String :=
  if items.isEmpty then
    "🥡 No leftovers right now!\n\nWhen you have leftover food, tell me and I" ++
      aposS ++ "ll help you use it before it goes bad."
  else
    let lines := ["🥡 **Your Leftovers:**\n"] ++
      items.map (fun item =>
        "• " ++ item.meal_name.getD "Unknown" ++ " - " ++
          item.servings.getD "?" ++ " servings") ++
      ["\n💡 *Tip: Try to use these first to reduce food waste!*"]
    String.intercalate "\n" lines

/-- Orchestrator._format_preferences. -/
def format_preferences (prefs : Option Prefs) : String :=
  match prefs with
  | none =>
      "⚙️ You haven" ++ aposS ++
        "t set up your preferences yet.\n\nI can help you with dietary restrictions, health goals, and family size to give better meal suggestions."
  | some p =>
      let lines := ["⚙️ **Your Preferences:**\n"] ++
        (if p.dietary_restrictions.isEmpty then []
         else ["🥗 Dietary: " ++ String.intercalate ", " p.dietary_restrictions]) ++
        (if p.health_goals.isEmpty then []
         else ["🎯 Goals: " ++ String.intercalate ", " p.health_goals]) ++
        (match p.family_size with
         | some n => ["👨‍👩‍👧 Family size: " ++ toString n]
         | none => []) ++
        (if p.cuisine_preferences.isEmpty then []
         else ["🌍 Favorite cuisines: " ++
           String.intercalate ", " p.cuisine_preferences])
      if 1 < lines.length then String.intercalate "\n" lines
      else "⚙️ Your preferences are set but empty. Tell me about your dietary needs!"

/-- Orchestrator._handle_query: fetch the context and format the requested
entity without any LLM, planner, validator or executor involvement. -/
def handle_query (env : Env) (user_id : String) (target : Option String) :
    String × List Eff :=
  let context := gather_context user_id env.now env.fetchPrefs env.fetchInv
    env.fetchLeft env.fetchShop
  let text :=
    match target with
    | some "shopping_list" => format_shopping_list context.shopping_list
    | some "inventory" => format_inventory context.inventory
    | some "leftovers" => format_leftovers context.leftovers
    | some "preferences" => format_preferences context.preferences
    | _ =>
        "I" ++ aposS ++ "m not sure what you" ++ aposS ++
          "re asking about. Try asking about your shopping list, pantry, leftovers, or preferences."
  (text, [.contextFetch])

/-- The imperative-to-past-tense verb table of _to_past_tense. -/
def VERB_MAP : List (String × String) :=
  [("add", "added"), ("remove", "removed"), ("delete", "deleted"),
   ("update", "updated"), ("set", "set"), ("change", "changed"),
   ("create", "created"), ("clear", "cleared"), ("replace", "replaced"),
   ("adjust", "adjusted"), ("search", "searched"), ("find", "found")]

/-- Python str.rstrip with dots. -/
def rstripDots (s : String) : String :=
  String.mk ((s.data.reverse.dropWhile (fun c => c == '.')).reverse)

/-- Whether one string is a prefix of another. -/
def startsWithS (p s : String) : Bool := p.data.isPrefixOf s.data

/-- Python desc.split(maxsplit one): the first whitespace-delimited token and
the remainder, absent when only whitespace follows. -/
def splitFirst (s : String) : String × Option String :=
  let d := s.data.dropWhile isPySpace
  let w := d.takeWhile (fun c => !(isPySpace c))
  let rest := (d.drop w.length).dropWhile isPySpace
  (String.mk w, if rest.isEmpty then none else some (String.mk rest))

/-- Orchestrator._to_past_tense: deterministic imperative-to-past-tense
rewrite of a step description. -/
def to_past_tense (description : String) : String :=
  let desc := pyStripS description
  if desc == "" then "Done."
  else
    let (w, restOpt) := splitFirst desc
    match VERB_MAP.lookup (pyLowerS w) with
    | some past =>
        rstripDots ("I" ++ aposS ++ "ve " ++ past ++ " " ++ restOpt.getD "") ++ "."
    | none =>
        if ["i" ++ aposS ++ "ve ", "i have ", "done", "updated", "added",
            "removed"].any (fun p => startsWithS p (pyLowerS desc)) then
          if desc.endsWith "." then desc else desc ++ "."
        else
          if desc.endsWith "." then "Done: " ++ desc else "Done: " ++ desc ++ "."

/-- Orchestrator._generate_completion_response: deterministic single-step
rewrite; for multiple steps one rate-limited LLM summary attempt whose
failure — including a RateLimitExceededError from the rate limiter — is
swallowed by the blanket except and replaced by the deterministic fallback. -/
def gen_completion_response (env : Env) (plan : ActionPlan) :
    String × List Eff :=
  let completed := plan.get_completed_steps
  let failed := plan.get_failed_steps
  if completed.isEmpty && failed.isEmpty then ("All done!", [])
  else if completed.isEmpty then
    ("I ran into some issues:\n\n" ++
      String.intercalate "\n" (failed.map (fun s => "- " ++ s.description)) ++
      "\n\nPlease try again or rephrase your request.", [])
  else
    let descriptions := completed.map (fun s => s.description)
    if descriptions.length == 1 then
      let confirmation := to_past_tense (descriptions.headD "")
      match failed with
      | [] => (confirmation, [])
      | f :: _ =>
          (confirmation ++ "\n\nHowever, I couldn" ++ aposS ++ "t: " ++
            pyLowerS f.description, [])
    else
      let fallback :=
        let base := String.intercalate " " (descriptions.map to_past_tense)
        if failed.isEmpty then base
        else base ++ "\n\nI couldn" ++ aposS ++ "t complete: " ++
          String.intercalate ", " (failed.map (fun s => pyLowerS s.description))
          ++ "."
      match env.rlSummary with
      | .error _ => (fallback, [.rateLimitWait])
      | .ok _ =>
          match env.summaryLlm with
          | .error _ => (fallback, [.rateLimitWait, .llmSummary])
          | .ok s =>
              let summary := pyStripS s
              if summary ≠ "" then (summary, [.rateLimitWait, .llmSummary])
              else (fallback, [.rateLimitWait, .llmSummary])

/-- The approval token list of _handle_plan_response. -/
def APPROVAL_WORDS : List String :=
  ["yes", "y", "ok", "okay", "sure", "go", "do it", "approve", "proceed",
   "yep", "yup"]

/-- The rejection token list of _handle_plan_response. -/
def REJECTION_WORDS : List String :=
  ["no", "n", "cancel", "stop", "nevermind", "never mind", "nope", "nah"]

/-- Whether the message contains any of the tokens as a substring
(`any(word in message_lower for word in words)`). -/
def containsAnyWord (ml : String) (ws : List String) : Bool :=
  ws.any (fun w => strContains w ml)

/-- Orchestrator._handle_plan_response: substring containment against the
approval tokens is checked first; only if none matched are the rejection
tokens consulted; otherwise the plan is redisplayed. -/
def handle_plan_response (env : Env) (pending : PendingMap)
    (user_id message : String) (plan : ActionPlan) : POut :=
  let ml := pyLowerStripS message
  if containsAnyWord ml APPROVAL_WORDS then
    let pending1 := pmDel pending user_id
    let eo := execute_plan env.handler { plan with status := .approved } env.now
    let (text, effs) := gen_completion_response env eo.plan
    ⟨⟨text, false⟩, pending1,
      [.execute] ++ eo.calls.map Eff.handlerCall ++ effs⟩
  else if containsAnyWord ml REJECTION_WORDS then
    ⟨⟨"No problem, cancelled! What would you like to do instead?", false⟩,
      pmDel pending user_id, []⟩
  else
    ⟨⟨"I" ++ aposS ++
        "m waiting for your approval. Say **yes** to proceed or **no** to cancel.\n\n"
        ++ plan.to_conversational, true⟩,
      pending, []⟩

/-- The clarification request returned when planning failed or produced no
steps. -/
def clarifyMsg : String :=
  "I understood you want to make some changes, but I" ++ aposS ++
    "m not quite sure what. Could you be more specific?\n\nFor example:\n- \"Add milk and eggs to my shopping list\"\n- \"Remove bread from my inventory\"\n- \"Add leftover pasta, 2 servings\""

/-- Orchestrator._handle_action: gather context, rate-limit (a raised
RateLimitExceededError escapes to process_message), plan via the oracle,
validate, then either report errors, store the plan as pending for approval,
or execute immediately and summarize. -/
def handle_action (env : Env) (pending : PendingMap) (user_id : String) :
    Except OrchErr POut :=
  let context := gather_context user_id env.now env.fetchPrefs env.fetchInv
    env.fetchLeft env.fetchShop
  match env.rlAction with
  | .error _ => .error .rateLimit
  | .ok _ =>
      let plan := env.planned
      if plan.status == .failed || plan.steps.isEmpty then
        .ok ⟨⟨clarifyMsg, false⟩, pending,
          [.contextFetch, .rateLimitWait, .llmPlan]⟩
      else
        let (validation, plan2) := validate_plan plan context
        if !validation.errors.isEmpty then
          .ok ⟨⟨"I can" ++ aposS ++ "t do that right now:\n\n" ++
              validation.to_message, false⟩, pending,
            [.contextFetch, .rateLimitWait, .llmPlan, .validate]⟩
        else if validation.requires_approval then
          .ok ⟨⟨plan2.to_conversational, true⟩, pmSet pending user_id plan2,
            [.contextFetch, .rateLimitWait, .llmPlan, .validate]⟩
        else
          let eo := execute_plan env.handler
            { plan2 with status := .approved } env.now
          let (text, effs) := gen_completion_response env eo.plan
          .ok ⟨⟨text, false⟩, pending,
            [.contextFetch, .rateLimitWait, .llmPlan, .validate, .execute] ++
              eo.calls.map Eff.handlerCall ++ effs⟩

/-- Orchestrator._handle_question (also the UNKNOWN fallback): gather
context, rate-limit (a raised RateLimitExceededError escapes), one LLM call
whose failure or empty answer yields a hardcoded fallback string. -/
def handle_question (env : Env) (pending : PendingMap) (user_id : String) :
    Except OrchErr POut :=
  let _context := gather_context user_id env.now env.fetchPrefs env.fetchInv
    env.fetchLeft env.fetchShop
  match env.rlQuestion with
  | .error _ => .error .rateLimit
  | .ok _ =>
      let text :=
        match env.questionLlm with
        | .ok s =>
            if s ≠ "" then s
            else "I" ++ aposS ++
              "m not sure how to answer that. Could you try asking differently?"
        | .error _ =>
            "I had trouble thinking about that. Could you try asking again?"
      .ok ⟨⟨text, false⟩, pending, [.contextFetch, .rateLimitWait, .llmQuestion]⟩

/-- The user-facing message substituted for a RateLimitExceededError at the
top level of process_message. -/
def shortBreakMsg : String :=
  "I" ++ aposS ++
    "m taking a short break to avoid overwhelming the system. Please try again in a minute! ⏳"

/-- Orchestrator.process_message: answer a pending-plan response if one is
pending, otherwise classify and route; a RateLimitExceededError raised on the
way is converted to the short-break message and any other exception to a
generic apology — the caller never sees a raw exception. -/
def process_message (env : Env) (pending : PendingMap)
    (user_id message : String) : POut :=
  let core : Except OrchErr POut :=
    match pmGet pending user_id with
    | some plan => .ok (handle_plan_response env pending user_id message plan)
    | none =>
        match (classify message).request_type with
        | .greeting => .ok ⟨⟨handle_greeting message, false⟩, pending, []⟩
        | .query =>
            let (text, effs) :=
              handle_query env user_id (classify message).target_entity
            .ok ⟨⟨text, false⟩, pending, effs⟩
        | .action => handle_action env pending user_id
        | .question => handle_question env pending user_id
        | .unknown => handle_question env pending user_id
  match core with
  | .ok out => out
  | .error .rateLimit => ⟨⟨shortBreakMsg, false⟩, pending, []⟩
  | .error (.other e) =>
      ⟨⟨"I" ++ aposS ++ "m sorry, something went wrong: " ++ e ++
          "\n\nPlease try again or rephrase your request.", false⟩,
        pending, []⟩

end Mise

namespace Mise

/-! Matcher lemmas for the classifier precedence theorem (claim C6). -/

/-- The failing regex matches no prefix of any word. -/
theorem preMatch_fail : (s : List Char) → preMatch .fail s = false
  | [] => rfl
  | _ :: s => by simp [preMatch, nullable, rderiv, preMatch_fail s]

/-- The empty regex matches the empty prefix of every word. -/
theorem preMatch_eps (s : List Char) : preMatch .eps s = true := by
  cases s <;> simp [preMatch, nullable]

/-- Prepending the empty regex with the smart constructor changes nothing. -/
theorem rseq_eps_left (x : Rx) : rseq .eps x = x := by cases x <;> rfl

/-- The whitespace class matches a one-character prefix of any word starting
with a whitespace character. -/
theorem preMatch_ws (c : Char) (rest : List Char) (h : isPySpace c = true) :
    preMatch wsRx (c :: rest) = true := by
  simp [preMatch, wsRx, nullable, rderiv, CC.test, h, preMatch_eps]

/-- A literal followed by the whitespace class matches a prefix of the
literal word followed by anything the whitespace class accepts a prefix of. -/
theorem preMatch_litws (v : List Char) (s : List Char)
    (h : preMatch wsRx s = true) :
    preMatch (.seq (litRx v) wsRx) (v ++ s) = true := by
  induction v with
  | nil =>
      cases s with
      | nil => simp [preMatch, nullable, wsRx] at h
      | cons c t =>
          simp only [litRx, List.nil_append, preMatch, nullable, rderiv, rseq,
            ralt, wsRx] at h ⊢
          exact h
  | cons a v ih =>
      rw [litRx, List.cons_append, preMatch]
      have hd : rderiv (Rx.seq (Rx.seq (.cls (.chr a)) (litRx v)) wsRx) a
          = rseq (litRx v) wsRx := by
        simp [rderiv, nullable, CC.test, rseq_eps_left]
      rw [hd]
      cases v with
      | nil =>
          rw [litRx, rseq_eps_left, List.nil_append, h]
          simp
      | cons b v' =>
          rw [show rseq (litRx (b :: v')) wsRx
                = Rx.seq (litRx (b :: v')) wsRx from rfl, ih]
          simp

/-- A word that strictly extends `v` is not a greeting when `v` is not a
prefix of any greeting word. -/
theorem greetingMatch_append_false (v : List Char) (c : Char) (x : List Char)
    (hsafe : greetingLits.all (fun g => !(v.isPrefixOf g)) = true) :
    greetingMatch (v ++ c :: x) = false := by
  rw [greetingMatch, List.any_eq_false]
  intro g hg
  rw [List.all_eq_true] at hsafe
  have h2 := hsafe g hg
  rw [Bool.not_eq_true'] at h2
  simp only [beq_iff_eq]
  intro he
  have hp : v.isPrefixOf g = true := by
    rw [List.isPrefixOf_iff_prefix]
    exact ⟨c :: x, he⟩
  rw [hp] at h2
  cases h2

/-- If one of the anchored verb patterns matches the message, the action tier
fires. -/
theorem action_any_true (ml v : List Char) (c : Char) (rest : List Char)
    (hml : ml = v ++ c :: rest) (hc : isPySpace c = true)
    (hmem : (⟨true, .seq (litRx v) wsRx⟩ : Pat) ∈ ACTION_PATTERNS) :
    ACTION_PATTERNS.any (matchPat ml) = true := by
  rw [List.any_eq_true]
  refine ⟨_, hmem, ?_⟩
  rw [matchPat, if_pos rfl, hml]
  exact preMatch_litws v (c :: rest) (preMatch_ws c rest hc)

/-- C6: every message whose lowercased, trimmed form begins with one of the
action verbs add/remove/delete/buy/purchase/order/put/update/change/set
followed by a whitespace character is classified as ACTION — never QUERY or
QUESTION — regardless of any query-like words elsewhere in the message. -/
theorem C6_action_verb_classifies_action (m v : String) (c : Char)
    (rest : List Char)
    (hv : v ∈ ["add", "remove", "delete", "buy", "purchase", "order", "put",
               "update", "change", "set"])
    (hs : pyLowerStrip m.data = v.data ++ c :: rest)
    (hc : isPySpace c = true) :
    (classify m).request_type = RequestType.action := by
  have hg : greetingMatch (pyLowerStrip m.data) = false := by
    rw [hs]
    apply greetingMatch_append_false
    fin_cases hv <;> decide
  have ha : ACTION_PATTERNS.any (matchPat (pyLowerStrip m.data)) = true := by
    apply action_any_true _ v.data c rest hs hc
    fin_cases hv <;> decide
  simp [classify, hg, ha]

/-- Witness for C6 at the spec example "add milk to my shopping list". -/
theorem C6_witness :
    "add milk to my shopping list" ∈ (["add milk to my shopping list"] : List String) ∧
    pyLowerStrip "add milk to my shopping list".data =
      "add".data ++ ' ' :: "milk to my shopping list".data ∧
    isPySpace ' ' = true ∧
    (classify "add milk to my shopping list").request_type =
      RequestType.action :=
  ⟨by decide, by decide, by decide,
   C6_action_verb_classifies_action "add milk to my shopping list" "add" ' '
     "milk to my shopping list".data (by decide) (by decide) (by decide)⟩

/-- C5: execute_plan on a plan whose status is not APPROVED returns the plan
with no field of the plan or of its steps modified, makes no handler call,
appends nothing to the execution log, issues no progress events and raises
no exception (the function is total). -/
theorem C5_not_approved_is_noop (handler : Handler) (plan : ActionPlan)
    (now : ℚ) (h : plan.status ≠ PlanStatus.approved) :
    execute_plan handler plan now = ⟨plan, [], [], []⟩ := by
  rw [execute_plan, if_pos h]

/-- Witness for C5: a DRAFT plan with a step whose handler would throw is
returned untouched with an empty log. -/
theorem C5_witness :
    (({ goal := "g", status := .draft,
        steps := [{ action := "deleteInventoryItem" }] } : ActionPlan).status ≠
      PlanStatus.approved) ∧
    execute_plan (fun _ _ => .error "boom")
      { goal := "g", status := .draft,
        steps := [{ action := "deleteInventoryItem" }] } 0 =
      ⟨{ goal := "g", status := .draft,
         steps := [{ action := "deleteInventoryItem" }] }, [], [], []⟩ :=
  ⟨by decide,
   C5_not_approved_is_noop (fun _ _ => .error "boom")
     { goal := "g", status := .draft,
       steps := [{ action := "deleteInventoryItem" }] } 0 (by decide)⟩

/-- C4: an APPROVED plan with steps [succeeds, throws, succeeds] executes all
three in order; the first and third end COMPLETED, the second ends FAILED
with its error recorded and all three stamped executed_at; the plan ends
COMPLETED with the mixed summary "2 steps succeeded, 1 failed"; and the
execution log holds one entry per step with that step's terminal status —
the middle failure never aborts the remaining steps. -/
theorem C4_partial_failure_isolation (handler : Handler) (pl : ActionPlan)
    (s1 s2 s3 : PlanStep) (r1 e2 r3 : String) (now : ℚ)
    (hst : pl.status = PlanStatus.approved)
    (hsteps : pl.steps = [s1, s2, s3])
    (hf1 : s1.status = .pending ∧ s1.result = none ∧ s1.error = none)
    (hf2 : s2.status = .pending ∧ s2.result = none ∧ s2.error = none)
    (hf3 : s3.status = .pending ∧ s3.result = none ∧ s3.error = none)
    (h1 : handler s1.action s1.parameters = .ok r1)
    (h2 : handler s2.action s2.parameters = .error e2)
    (h3 : handler s3.action s3.parameters = .ok r3) :
    (execute_plan handler pl now).calls = [s1.action, s2.action, s3.action] ∧
    (execute_plan handler pl now).plan.steps =
      [{ s1 with status := .completed, result := some r1,
                 executed_at := some now },
       { s2 with status := .failed, error := some e2,
                 executed_at := some now },
       { s3 with status := .completed, result := some r3,
                 executed_at := some now }] ∧
    (execute_plan handler pl now).plan.status = PlanStatus.completed ∧
    (execute_plan handler pl now).plan.execution_summary =
      some "2 steps succeeded, 1 failed" ∧
    (execute_plan handler pl now).log.map (fun l => (l.step_id, l.status)) =
      [(s1.id, "completed"), (s2.id, "failed"), (s3.id, "completed")] ∧
    (execute_plan handler pl now).events =
      [(s1.id, "executing"), (s1.id, "completed"),
       (s2.id, "executing"), (s2.id, "failed"),
       (s3.id, "executing"), (s3.id, "completed")] := by
  obtain ⟨hs1, hr1, he1⟩ := hf1
  obtain ⟨hs2, hr2, he2⟩ := hf2
  obtain ⟨hs3, hr3, he3⟩ := hf3
  have hne : ¬ (pl.status ≠ PlanStatus.approved) := by rw [hst]; simp
  rw [execute_plan, if_neg hne]
  simp only [hsteps, List.foldl, execStep, h1, h2, h3]
  simp [ActionPlan.get_completed_steps, ActionPlan.get_failed_steps,
    List.filter, hr1, he1, hr2, he2, hr3, he3,
    show (PlanStepStatus.completed == PlanStepStatus.failed) = false from rfl,
    show (PlanStepStatus.failed == PlanStepStatus.failed) = true from rfl,
    show (PlanStepStatus.completed == PlanStepStatus.completed) = true from rfl,
    show (PlanStepStatus.failed == PlanStepStatus.completed) = false from rfl]
  rfl

/-- Witness for C4 on a concrete three-step plan whose handler fails exactly
on the middle action. -/
theorem C4_witness :
    (({ goal := "g", status := .approved,
        steps := [{ id := "a", action := "s1" }, { id := "b", action := "s2" },
                  { id := "c", action := "s3" }] } : ActionPlan).status =
      PlanStatus.approved) ∧
    ((execute_plan
        (fun a _ => if a == "s2" then .error "boom" else .ok "done")
        { goal := "g", status := .approved,
          steps := [{ id := "a", action := "s1" }, { id := "b", action := "s2" },
                    { id := "c", action := "s3" }] } 7).plan.status =
      PlanStatus.completed ∧
     (execute_plan
        (fun a _ => if a == "s2" then .error "boom" else .ok "done")
        { goal := "g", status := .approved,
          steps := [{ id := "a", action := "s1" }, { id := "b", action := "s2" },
                    { id := "c", action := "s3" }] } 7).plan.execution_summary =
      some "2 steps succeeded, 1 failed") :=
  ⟨by decide,
   (C4_partial_failure_isolation
      (fun a _ => if a == "s2" then .error "boom" else .ok "done")
      { goal := "g", status := .approved,
        steps := [{ id := "a", action := "s1" }, { id := "b", action := "s2" },
                  { id := "c", action := "s3" }] }
      { id := "a", action := "s1" } { id := "b", action := "s2" }
      { id := "c", action := "s3" } "done" "boom" "done" 7
      rfl rfl ⟨rfl, rfl, rfl⟩ ⟨rfl, rfl, rfl⟩ ⟨rfl, rfl, rfl⟩
      rfl rfl rfl).2.2.1,
   (C4_partial_failure_isolation
      (fun a _ => if a == "s2" then .error "boom" else .ok "done")
      { goal := "g", status := .approved,
        steps := [{ id := "a", action := "s1" }, { id := "b", action := "s2" },
                  { id := "c", action := "s3" }] }
      { id := "a", action := "s1" } { id := "b", action := "s2" }
      { id := "c", action := "s3" } "done" "boom" "done" 7
      rfl rfl ⟨rfl, rfl, rfl⟩ ⟨rfl, rfl, rfl⟩ ⟨rfl, rfl, rfl⟩
      rfl rfl rfl).2.2.2.1⟩

/-- C8: gather_context never raises, and for every combination of the four
fetches independently failing, each failed field keeps its zero-value, each
successful fetch is stored in its field, and the gathering time is
recorded. -/
theorem C8_gather_context_isolation (uid : String) (now : ℚ)
    (fp : Except String (Option Prefs)) (fi : Except String (List InvItem))
    (fl : Except String (List LeftItem)) (fs : Except String (List ShopItem)) :
    (gather_context uid now fp fi fl fs).user_id = uid ∧
    (gather_context uid now fp fi fl fs).preferences =
      (match fp with | .ok v => v | .error _ => none) ∧
    (gather_context uid now fp fi fl fs).inventory =
      (match fi with | .ok v => v | .error _ => []) ∧
    (gather_context uid now fp fi fl fs).leftovers =
      (match fl with | .ok v => v | .error _ => []) ∧
    (gather_context uid now fp fi fl fs).shopping_list =
      (match fs with | .ok v => v | .error _ => []) ∧
    (gather_context uid now fp fi fl fs).gathered_at = some now := by
  cases fp <;> cases fi <;> cases fl <;> cases fs <;> simp [gather_context]

/-- A zero-total-cost plan makes the budget check a no-op. -/
theorem check_budget_zero (plan : ActionPlan) (ctx : AgentContext)
    (h : plan.total_estimated_cost = 0) :
    check_budget plan ctx = ⟨false, none, [], []⟩ := by
  rw [check_budget, h]
  simp

/-- A step with no delete/remove in its action name and no dangerous keyword
in its description leaves the safety-loop state untouched. -/
theorem safetyStep_id (st : Bool × Option String × List String)
    (step : PlanStep)
    (hd : strContains "delete" (pyLowerS step.action) = false)
    (hr : strContains "remove" (pyLowerS step.action) = false)
    (hk : ∀ k ∈ REQUIRE_APPROVAL_KEYWORDS,
        strContains k (pyLowerS step.description) = false) :
    safetyStep st step = st := by
  obtain ⟨ra, reason, warnings⟩ := st
  have hf : REQUIRE_APPROVAL_KEYWORDS.find?
      (fun k => strContains k (pyLowerS step.description)) = none := by
    rw [List.find?_eq_none]
    intro k hkm
    rw [hk k hkm]
    simp
  simp [safetyStep, hd, hr, hf]

/-- The safety check passes on a plan whose steps all avoid delete/remove
action names and dangerous description keywords. -/
theorem check_safety_clean (plan : ActionPlan)
    (hact : ∀ s ∈ plan.steps,
        strContains "delete" (pyLowerS s.action) = false ∧
        strContains "remove" (pyLowerS s.action) = false)
    (hdesc : ∀ s ∈ plan.steps, ∀ k ∈ REQUIRE_APPROVAL_KEYWORDS,
        strContains k (pyLowerS s.description) = false) :
    check_safety plan = ⟨false, none, [], []⟩ := by
  rw [check_safety]
  have hfold : ∀ (l : List PlanStep),
      (∀ s ∈ l,
        (strContains "delete" (pyLowerS s.action) = false ∧
         strContains "remove" (pyLowerS s.action) = false) ∧
        ∀ k ∈ REQUIRE_APPROVAL_KEYWORDS,
          strContains k (pyLowerS s.description) = false) →
      ∀ st, l.foldl safetyStep st = st := by
    intro l
    induction l with
    | nil => intro _ st; rfl
    | cons a tl ih =>
        intro h st
        have ha := h a (List.mem_cons_self a tl)
        rw [List.foldl_cons, safetyStep_id st a ha.1.1 ha.1.2 ha.2]
        exact ih (fun s hs => h s (List.mem_cons_of_mem a hs)) st
  rw [hfold plan.steps (fun s hs => ⟨hact s hs, hdesc s hs⟩) (false, none, [])]

/-- C3 counterexample: the claim as stated is false — a plan with total cost
zero and no delete/remove action name still requires approval when a step
description contains the dangerous keyword "clear". -/
theorem C3_counterexample :
    (({ goal := "tidy",
        steps := [{ action := "addToShoppingList",
                    description := "Clear the shopping list" }] } :
          ActionPlan).total_estimated_cost = 0) ∧
    (({ goal := "tidy",
        steps := [{ action := "addToShoppingList",
                    description := "Clear the shopping list" }] } :
          ActionPlan).steps.all (fun s =>
        !(strContains "delete" (pyLowerS s.action)) &&
        !(strContains "remove" (pyLowerS s.action))) = true) ∧
    (validate_plan
        { goal := "tidy",
          steps := [{ action := "addToShoppingList",
                      description := "Clear the shopping list" }] }
        { user_id := "u" }).1.requires_approval = true ∧
    (validate_plan
        { goal := "tidy",
          steps := [{ action := "addToShoppingList",
                      description := "Clear the shopping list" }] }
        { user_id := "u" }).2.status = PlanStatus.awaiting_approval := by
  have hb : check_budget
      { goal := "tidy",
        steps := [{ action := "addToShoppingList",
                    description := "Clear the shopping list" }] }
      { user_id := "u" } = ⟨false, none, [], []⟩ :=
    check_budget_zero _ _ (by simp [ActionPlan.total_estimated_cost])
  have hs : check_safety
      { goal := "tidy",
        steps := [{ action := "addToShoppingList",
                    description := "Clear the shopping list" }] } =
      ⟨true, some ("This action involves " ++ aposS ++ "clear" ++ aposS ++
        " which requires confirmation"), [], []⟩ := by decide
  refine ⟨by simp [ActionPlan.total_estimated_cost], by decide, ?_, ?_⟩ <;>
    simp [validate_plan, hb, hs, check_duplicates, check_preferences]

/-- C3 amended: a plan with total estimated cost zero, no delete/remove in
any step action name and no dangerous keyword (delete all / remove all /
clear / reset) in any step description validates with requires_approval
false and empty errors, and its status becomes APPROVED. -/
theorem C3_amended_zero_cost_auto_approved (plan : ActionPlan)
    (ctx : AgentContext)
    (hcost : plan.total_estimated_cost = 0)
    (hact : ∀ s ∈ plan.steps,
        strContains "delete" (pyLowerS s.action) = false ∧
        strContains "remove" (pyLowerS s.action) = false)
    (hdesc : ∀ s ∈ plan.steps, ∀ k ∈ REQUIRE_APPROVAL_KEYWORDS,
        strContains k (pyLowerS s.description) = false) :
    (validate_plan plan ctx).1.requires_approval = false ∧
    (validate_plan plan ctx).1.errors = [] ∧
    (validate_plan plan ctx).2.status = PlanStatus.approved := by
  have hb := check_budget_zero plan ctx hcost
  have hsafe := check_safety_clean plan hact hdesc
  simp [validate_plan, hb, hsafe]

/-- Witness for the amended C3 on a concrete one-step, zero-cost plan. -/
theorem C3_witness :
    (({ goal := "shop",
        steps := [{ action := "addToShoppingList",
                    description := "Add milk to your shopping list" }] } :
          ActionPlan).total_estimated_cost = 0) ∧
    (validate_plan
        { goal := "shop",
          steps := [{ action := "addToShoppingList",
                      description := "Add milk to your shopping list" }] }
        { user_id := "u" }).1.requires_approval = false ∧
    (validate_plan
        { goal := "shop",
          steps := [{ action := "addToShoppingList",
                      description := "Add milk to your shopping list" }] }
        { user_id := "u" }).2.status = PlanStatus.approved :=
  ⟨by simp [ActionPlan.total_estimated_cost],
   (C3_amended_zero_cost_auto_approved
      { goal := "shop",
        steps := [{ action := "addToShoppingList",
                    description := "Add milk to your shopping list" }] }
      { user_id := "u" } (by simp [ActionPlan.total_estimated_cost])
      (by decide) (by decide)).1,
   (C3_amended_zero_cost_auto_approved
      { goal := "shop",
        steps := [{ action := "addToShoppingList",
                    description := "Add milk to your shopping list" }] }
      { user_id := "u" } (by simp [ActionPlan.total_estimated_cost])
      (by decide) (by decide)).2.2⟩

/-- dropWhile is the identity when the predicate fails on every element. -/
theorem dropWhile_eq_self_of_false {α : Type} (p : α → Bool) (l : List α)
    (h : ∀ x ∈ l, p x = false) : l.dropWhile p = l := by
  cases l with
  | nil => rfl
  | cons a t =>
      rw [List.dropWhile_cons, h a (List.mem_cons_self a t)]
      simp

/-- Under both caps, one wait_if_needed call waits zero seconds and records
the call time in both windows. -/
theorem wait_if_needed_under_cap (q : List ℚ) (t t0 : ℚ)
    (hq : ∀ x ∈ q, t0 ≤ x) (ht : t < t0 + 60)
    (hlen : q.length < 10) :
    wait_if_needed {} ⟨q, q⟩ t = .ok (0, ⟨q ++ [t], q ++ [t]⟩) := by
  have hm : q.dropWhile (fun x => decide (x < t - 60)) = q := by
    apply dropWhile_eq_self_of_false
    intro x hx
    have h1 := hq x hx
    simp only [decide_eq_false_iff_not, not_lt]
    linarith
  have hd : q.dropWhile (fun x => decide (x < t - 86400)) = q := by
    apply dropWhile_eq_self_of_false
    intro x hx
    have h1 := hq x hx
    simp only [decide_eq_false_iff_not, not_lt]
    linarith
  have h10 : ¬ (10 ≤ q.length) := by omega
  have h1000 : ¬ (1000 ≤ q.length) := by omega
  rw [wait_if_needed]
  simp only [hm, hd]
  simp [h10, h1000]

/-- From empty windows, any run of at most ten calls all lying within one
minute of a common origin waits zero seconds at every call. -/
theorem runRL_zero_waits (ts : List ℚ) : ∀ (q : List ℚ) (t0 : ℚ),
    (∀ x ∈ q ++ ts, t0 ≤ x ∧ x < t0 + 60) →
    q.length + ts.length ≤ 10 →
    runRL {} ⟨q, q⟩ ts =
      .ok (List.replicate ts.length 0, ⟨q ++ ts, q ++ ts⟩) := by
  induction ts with
  | nil =>
      intro q t0 _ _
      simp [runRL]
  | cons t ts ih =>
      intro q t0 hb hlen
      have hw := wait_if_needed_under_cap q t t0
        (fun x hx => (hb x (List.mem_append_left _ hx)).1)
        ((hb t (List.mem_append_right _ (List.mem_cons_self _ _))).2)
        (by simp at hlen; omega)
      have hrec := ih (q ++ [t]) t0
        (by
          intro x hx
          apply hb
          rw [List.append_assoc] at hx
          simpa using hx)
        (by simp at hlen ⊢; omega)
      rw [runRL, hw]
      simp [hrec, List.append_assoc]
      rw [List.replicate_succ]

/-- The eleventh call on a full minute window: the wait is sixty seconds
minus the time elapsed since the oldest call in the window. -/
theorem wait_if_needed_full (t0 t : ℚ) (rest : List ℚ)
    (hlen : rest.length = 9) (ht2 : t < t0 + 60) :
    wait_if_needed {} ⟨t0 :: rest, t0 :: rest⟩ t =
      .ok (t0 + 60 - t,
           ⟨(t0 :: rest) ++ [t0 + 60], (t0 :: rest) ++ [t0 + 60]⟩) := by
  have hm : (t0 :: rest).dropWhile (fun x => decide (x < t - 60)) =
      t0 :: rest := by
    rw [List.dropWhile_cons, if_neg (by simp; linarith)]
  have hd : (t0 :: rest).dropWhile (fun x => decide (x < t - 86400)) =
      t0 :: rest := by
    rw [List.dropWhile_cons, if_neg (by simp; linarith)]
  have hwait : max (0 : ℚ) (t0 + 60 - t) = t0 + 60 - t :=
    max_eq_right (by linarith)
  have hcap : (10 : Nat) ≤ (t0 :: rest).length := by simp [hlen]
  have h1000 : ¬ ((1000 : Nat) ≤ (t0 :: rest).length) := by simp [hlen]
  have hpos : (0 : ℚ) < t0 + 60 - t := by linarith
  have e1 : t + (t0 + 60 - t) = t0 + 60 := by ring
  have e2 : t0 + 60 - 60 = t0 := by ring
  have hm2 : (t0 :: rest).dropWhile (fun x => decide (x < t0)) =
      t0 :: rest := by
    rw [List.dropWhile_cons, if_neg (by simp)]
  rw [wait_if_needed]
  simp [hm, hd, hwait, hpos, e1, e2, hm2, hlen]

/-- Splitting a run of rate-limiter calls. -/
theorem runRL_append (cfg : RLConfig) (l1 l2 : List ℚ) : ∀ st,
    runRL cfg st (l1 ++ l2) =
      match runRL cfg st l1 with
      | .error e => .error e
      | .ok (ws, st1) =>
          match runRL cfg st1 l2 with
          | .error e => .error e
          | .ok (ws2, st2) => .ok (ws ++ ws2, st2) := by
  induction l1 with
  | nil =>
      intro st
      simp only [List.nil_append, runRL]
      cases h : runRL cfg st l2 with
      | error e => rfl
      | ok p => rfl
  | cons t l1 ih =>
      intro st
      rw [List.cons_append, runRL, runRL]
      cases hw : wait_if_needed cfg st t with
      | error e => rfl
      | ok p =>
          obtain ⟨w, st1⟩ := p
          dsimp only
          rw [ih st1]
          cases h1 : runRL cfg st1 l1 with
          | error e => rfl
          | ok p1 =>
              obtain ⟨ws, st2⟩ := p1
              dsimp only
              cases h2 : runRL cfg st2 l2 with
              | error e => rfl
              | ok p2 => rfl

/-- C7: from empty windows, ten calls in quick succession (all within one
minute of the first call) each wait zero seconds; the eleventh call, made
while the window is still full, blocks for exactly sixty seconds minus the
time elapsed since the oldest call in the window. -/
theorem C7_rate_limiter_window (t0 t : ℚ) (ts : List ℚ)
    (hlen : ts.length = 9)
    (hb : ∀ x ∈ t0 :: ts, t0 ≤ x ∧ x < t0 + 60)
    (ht2 : t < t0 + 60) :
    runRL {} ⟨[], []⟩ ((t0 :: ts) ++ [t]) =
      .ok (List.replicate 10 0 ++ [t0 + 60 - t],
           ⟨(t0 :: ts) ++ [t0 + 60], (t0 :: ts) ++ [t0 + 60]⟩) ∧
    0 < t0 + 60 - t := by
  refine ⟨?_, by linarith⟩
  have h10 := runRL_zero_waits (t0 :: ts) [] t0 (by simpa using hb)
    (by simp [hlen])
  have hfull := wait_if_needed_full t0 t ts hlen ht2
  rw [runRL_append, h10]
  simp only [runRL, List.nil_append]
  rw [hfull]
  simp [hlen]

/-- Witness for C7: calls at seconds 0 through 9, then one at second 30,
which waits thirty seconds. -/
theorem C7_witness :
    runRL {} ⟨[], []⟩ (((0 : ℚ) :: [1, 2, 3, 4, 5, 6, 7, 8, 9]) ++ [30]) =
      .ok (List.replicate 10 0 ++ [(0 : ℚ) + 60 - 30],
           ⟨((0 : ℚ) :: [1, 2, 3, 4, 5, 6, 7, 8, 9]) ++ [(0 : ℚ) + 60],
            ((0 : ℚ) :: [1, 2, 3, 4, 5, 6, 7, 8, 9]) ++ [(0 : ℚ) + 60]⟩) ∧
    (0 : ℚ) < (0 : ℚ) + 60 - 30 :=
  C7_rate_limiter_window 0 30 [1, 2, 3, 4, 5, 6, 7, 8, 9] rfl
    (by intro x hx
        fin_cases hx <;>
          exact ⟨by decide, by simp only [zero_add]; decide⟩)
    (by simp only [zero_add]; decide)

/-- Dict assignment on the pending map overwrites: reading the key back
yields exactly the newly stored plan. -/
theorem pmGet_pmSet (mp : PendingMap) (k : String) (v : ActionPlan) :
    pmGet (pmSet mp k v) k = some v := by
  rw [pmGet, pmSet]
  have h1 : (mp.filter (fun p => p.1 != k)).find? (fun p => p.1 == k) =
      none := by
    rw [List.find?_eq_none]
    intro x hx
    have hm := List.of_mem_filter hx
    simp at hm ⊢
    exact hm
  rw [List.find?_append, h1]
  simp [List.find?]

/-- The effect list of _generate_completion_response is one of three shapes,
none of which contains a planner call. -/
theorem gen_completion_effs (env : Env) (plan : ActionPlan) :
    (gen_completion_response env plan).2 = [] ∨
    (gen_completion_response env plan).2 = [Eff.rateLimitWait] ∨
    (gen_completion_response env plan).2 = [Eff.rateLimitWait, Eff.llmSummary] := by
  unfold gen_completion_response
  dsimp only
  repeat' split
  all_goals
    first
      | exact Or.inl rfl
      | exact Or.inr (Or.inl rfl)
      | exact Or.inr (Or.inr rfl)

/-- C9: a QUERY-classified message from a user with no pending plan produces
only a context fetch — no LLM call, no planner, no validator, no executor —
leaves the pending map unchanged, and when the target entity is the shopping
list and the fetched list is empty the response states the list is empty. -/
theorem C9_query_path_no_llm (env : Env) (pending : PendingMap)
    (uid m : String)
    (hp : pmGet pending uid = none)
    (hq : (classify m).request_type = RequestType.query) :
    (process_message env pending uid m).trace = [Eff.contextFetch] ∧
    (process_message env pending uid m).pending = pending ∧
    ((classify m).target_entity = some "shopping_list" →
      env.fetchShop = .ok [] →
      (process_message env pending uid m).resp.text =
        "📝 Your shopping list is empty!\n\nSay something like \"add milk to my shopping list\" to get started.") := by
  refine ⟨?_, ?_, ?_⟩
  · simp [process_message, hp, hq, handle_query]
  · simp [process_message, hp, hq, handle_query]
  · intro ht hs
    simp [process_message, hp, hq, handle_query, ht, gather_context, hs,
      format_shopping_list]

/-- Witness for C9: the empty-shopping-list query scenario of the spec. -/
theorem C9_witness :
    pmGet [] "u" = none ∧
    (classify ("what" ++ aposS ++ "s in my shopping list")).request_type =
      RequestType.query ∧
    (process_message {} [] "u"
        ("what" ++ aposS ++ "s in my shopping list")).trace =
      [Eff.contextFetch] ∧
    (process_message {} [] "u"
        ("what" ++ aposS ++ "s in my shopping list")).resp.text =
      "📝 Your shopping list is empty!\n\nSay something like \"add milk to my shopping list\" to get started." :=
  ⟨rfl, by decide,
   (C9_query_path_no_llm {} [] "u" ("what" ++ aposS ++ "s in my shopping list")
     rfl (by decide)).1,
   (C9_query_path_no_llm {} [] "u" ("what" ++ aposS ++ "s in my shopping list")
     rfl (by decide)).2.2 (by decide) rfl⟩

/-- C10: with a plan pending, approval tokens are checked first by substring
containment; any message containing one removes the pending plan and executes
it, and the rejection tokens are consulted only when no approval token
matched. -/
theorem C10_approval_checked_first (env : Env) (pending : PendingMap)
    (uid m : String) (plan : ActionPlan)
    (hp : pmGet pending uid = some plan) :
    (containsAnyWord (pyLowerStripS m) APPROVAL_WORDS = true →
      process_message env pending uid m =
        ⟨⟨(gen_completion_response env
            (execute_plan env.handler { plan with status := .approved }
              env.now).plan).1, false⟩,
         pmDel pending uid,
         [Eff.execute] ++
           (execute_plan env.handler { plan with status := .approved }
             env.now).calls.map Eff.handlerCall ++
           (gen_completion_response env
             (execute_plan env.handler { plan with status := .approved }
               env.now).plan).2⟩) ∧
    (containsAnyWord (pyLowerStripS m) APPROVAL_WORDS = false →
      containsAnyWord (pyLowerStripS m) REJECTION_WORDS = true →
      process_message env pending uid m =
        ⟨⟨"No problem, cancelled! What would you like to do instead?", false⟩,
         pmDel pending uid, []⟩) := by
  constructor
  · intro ha
    simp [process_message, hp, handle_plan_response, ha]
  · intro ha hr
    simp [process_message, hp, handle_plan_response, ha, hr]

/-- Witness for C10: the message "not today" contains the approval token "y"
(in "today") and the rejection token "no" (in "not"); approval wins, the
pending plan is removed and executed. -/
theorem C10_witness :
    pmGet [("u",
        { goal := "add milk",
          steps := [{ action := "addToShoppingList",
                      description := "Add milk to your shopping list" }],
          status := .awaiting_approval })] "u" =
      some { goal := "add milk",
             steps := [{ action := "addToShoppingList",
                         description := "Add milk to your shopping list" }],
             status := .awaiting_approval } ∧
    containsAnyWord (pyLowerStripS "not today") APPROVAL_WORDS = true ∧
    containsAnyWord (pyLowerStripS "not today") REJECTION_WORDS = true ∧
    process_message {} [("u",
        { goal := "add milk",
          steps := [{ action := "addToShoppingList",
                      description := "Add milk to your shopping list" }],
          status := .awaiting_approval })] "u" "not today" =
      ⟨⟨(gen_completion_response {}
            (execute_plan ({} : Env).handler
              { goal := "add milk",
                steps := [{ action := "addToShoppingList",
                            description := "Add milk to your shopping list" }],
                status := .approved } ({} : Env).now).plan).1, false⟩,
       pmDel [("u",
          { goal := "add milk",
            steps := [{ action := "addToShoppingList",
                        description := "Add milk to your shopping list" }],
            status := .awaiting_approval })] "u",
       [Eff.execute] ++
         (execute_plan ({} : Env).handler
           { goal := "add milk",
             steps := [{ action := "addToShoppingList",
                         description := "Add milk to your shopping list" }],
             status := .approved } ({} : Env).now).calls.map Eff.handlerCall ++
         (gen_completion_response {}
           (execute_plan ({} : Env).handler
             { goal := "add milk",
               steps := [{ action := "addToShoppingList",
                           description := "Add milk to your shopping list" }],
               status := .approved } ({} : Env).now).plan).2⟩ := by
  refine ⟨rfl, by decide, by decide, ?_⟩
  exact (C10_approval_checked_first {}
    [("u",
      { goal := "add milk",
        steps := [{ action := "addToShoppingList",
                    description := "Add milk to your shopping list" }],
        status := .awaiting_approval })] "u" "not today"
    { goal := "add milk",
      steps := [{ action := "addToShoppingList",
                  description := "Add milk to your shopping list" }],
      status := .awaiting_approval } rfl).1 (by decide)

/-- C1 counterexample: the claim as stated is false — a second ACTION
message sent while a plan is pending is never planned or stored: the map
still holds the old plan, the planner is never invoked, and the pending
entry does not become the plan the planner would produce. -/
theorem C1_counterexample :
    (classify "add milk").request_type = RequestType.action ∧
    (process_message
        { planned := { goal := "new plan from second message",
                       steps := [{ action := "addToShoppingList" }] } }
        [("u",
          { goal := "old pending plan", status := .awaiting_approval })]
        "u" "add milk").pending =
      [("u", { goal := "old pending plan", status := .awaiting_approval })] ∧
    pmGet (process_message
        { planned := { goal := "new plan from second message",
                       steps := [{ action := "addToShoppingList" }] } }
        [("u",
          { goal := "old pending plan", status := .awaiting_approval })]
        "u" "add milk").pending "u" ≠
      some { goal := "new plan from second message",
             steps := [{ action := "addToShoppingList" }] } ∧
    Eff.llmPlan ∉ (process_message
        { planned := { goal := "new plan from second message",
                       steps := [{ action := "addToShoppingList" }] } }
        [("u",
          { goal := "old pending plan", status := .awaiting_approval })]
        "u" "add milk").trace := by decide

/-- C1 amended: while a plan is pending for a user, any message — including
a second ACTION message — is handled as a plan response: the planner is
never invoked, and the pending map is only ever cleared of the user entry or
left unchanged; the assignment in _handle_action (reachable only when no
plan is pending) overwrites the user entry, so at most one plan is pending
per user. -/
theorem C1_amended_no_second_plan (env : Env) (pending : PendingMap)
    (uid m : String) (plan : ActionPlan)
    (hp : pmGet pending uid = some plan) :
    Eff.llmPlan ∉ (process_message env pending uid m).trace ∧
    ((process_message env pending uid m).pending = pmDel pending uid ∨
     (process_message env pending uid m).pending = pending) ∧
    (∀ p2 : ActionPlan, pmGet (pmSet pending uid p2) uid = some p2) := by
  refine ⟨?_, ?_, fun p2 => pmGet_pmSet pending uid p2⟩
  · cases ha : containsAnyWord (pyLowerStripS m) APPROVAL_WORDS with
    | true =>
        simp [process_message, hp, handle_plan_response, ha]
        rcases gen_completion_effs env
            (execute_plan env.handler { plan with status := .approved }
              env.now).plan with h | h | h <;> simp [h]
    | false =>
        cases hr : containsAnyWord (pyLowerStripS m) REJECTION_WORDS with
        | true => simp [process_message, hp, handle_plan_response, ha, hr]
        | false => simp [process_message, hp, handle_plan_response, ha, hr]
  · cases ha : containsAnyWord (pyLowerStripS m) APPROVAL_WORDS with
    | true =>
        exact Or.inl (by simp [process_message, hp, handle_plan_response, ha])
    | false =>
        cases hr : containsAnyWord (pyLowerStripS m) REJECTION_WORDS with
        | true =>
            exact Or.inl
              (by simp [process_message, hp, handle_plan_response, ha, hr])
        | false =>
            exact Or.inr
              (by simp [process_message, hp, handle_plan_response, ha, hr])

/-- Witness for the amended C1 at a concrete pending plan and a second
ACTION message. -/
theorem C1_witness :
    Eff.llmPlan ∉ (process_message {}
      [("u", { goal := "old pending plan", status := .awaiting_approval })]
      "u" "add milk").trace ∧
    ((process_message {}
        [("u", { goal := "old pending plan", status := .awaiting_approval })]
        "u" "add milk").pending =
      pmDel [("u", { goal := "old pending plan",
                     status := .awaiting_approval })] "u" ∨
     (process_message {}
        [("u", { goal := "old pending plan", status := .awaiting_approval })]
        "u" "add milk").pending =
      [("u", { goal := "old pending plan", status := .awaiting_approval })]) ∧
    (∀ p2 : ActionPlan,
      pmGet (pmSet [("u", { goal := "old pending plan",
                            status := .awaiting_approval })] "u" p2) "u" =
        some p2) :=
  C1_amended_no_second_plan {}
    [("u", { goal := "old pending plan", status := .awaiting_approval })]
    "u" "add milk"
    { goal := "old pending plan", status := .awaiting_approval } rfl

/-- C2 counterexample: the claim as stated is false — a RateLimitExceeded
raised by the rate limiter during the completion-summary LLM call of a
multi-step plan is absorbed inside _generate_completion_response by its
blanket except: the user sees the deterministic fallback summary, not the
short-break message, even though the rate-limiter wait was attempted. -/
theorem C2_counterexample :
    (process_message { rlSummary := .error () }
        [("u",
          { goal := "add items",
            steps := [{ action := "addToShoppingList",
                        description := "Add milk to your shopping list" },
                      { action := "addToShoppingList",
                        description := "Add eggs to your pantry" }],
            status := .awaiting_approval })]
        "u" "yes").resp.text =
      "I" ++ aposS ++ "ve added milk to your shopping list. I" ++ aposS ++
        "ve added eggs to your pantry." ∧
    (process_message { rlSummary := .error () }
        [("u",
          { goal := "add items",
            steps := [{ action := "addToShoppingList",
                        description := "Add milk to your shopping list" },
                      { action := "addToShoppingList",
                        description := "Add eggs to your pantry" }],
            status := .awaiting_approval })]
        "u" "yes").resp.text ≠ shortBreakMsg ∧
    Eff.rateLimitWait ∈ (process_message { rlSummary := .error () }
        [("u",
          { goal := "add items",
            steps := [{ action := "addToShoppingList",
                        description := "Add milk to your shopping list" },
                      { action := "addToShoppingList",
                        description := "Add eggs to your pantry" }],
            status := .awaiting_approval })]
        "u" "yes").trace := by decide

/-- C2 amended: a RateLimitExceeded raised by the rate limiter before plan
creation propagates uncaught to process_message and is converted there into
the short-break message with the pending map untouched (the caller never
receives a raw exception); one raised during the completion-summary call is
instead absorbed inside _generate_completion_response and replaced by the
deterministic fallback summary. -/
theorem C2_amended_rate_limit_to_top (env : Env) (pending : PendingMap)
    (uid m : String)
    (hp : pmGet pending uid = none)
    (hcls : (classify m).request_type = RequestType.action)
    (hrl : env.rlAction = .error ()) :
    (process_message env pending uid m).resp.text = shortBreakMsg ∧
    (process_message env pending uid m).pending = pending := by
  constructor <;> simp [process_message, hp, hcls, handle_action, hrl]

/-- Witness for the amended C2: the rate limiter saturates before planning
and the user receives the short-break message. -/
theorem C2_witness :
    pmGet [] "u" = none ∧
    (classify "add milk").request_type = RequestType.action ∧
    (process_message { rlAction := .error () } [] "u" "add milk").resp.text =
      shortBreakMsg ∧
    (process_message { rlAction := .error () } [] "u" "add milk").pending =
      [] :=
  ⟨rfl, by decide,
   (C2_amended_rate_limit_to_top { rlAction := .error () } [] "u" "add milk"
     rfl (by decide) rfl).1,
   (C2_amended_rate_limit_to_top { rlAction := .error () } [] "u" "add milk"
     rfl (by decide) rfl).2⟩

example : (classify "add milk to my shopping list").request_type = RequestType.action := by decide
example : (classify "hi").request_type = RequestType.greeting := by decide
example : (classify "what should i cook").request_type = RequestType.question := by decide
example : classify ("what" ++ (Char.ofNat 39).toString ++ "s in my shopping list") =
    ⟨.query, "view shopping_list", some "shopping_list", true, false⟩ := by decide
example : (classify "whats in my shopping list").request_type = RequestType.query := by decide
example : (classify "blah blah").request_type = RequestType.unknown := by decide

end Mise
